import Mathlib

/-!
Shallow embedding of the UI core of twitter-tool-rs (src/ui/mod.rs,
src/ui/bottom_bar.rs, src/ui/tweet_pane.rs) and proofs that settle the
spec claims against it.

Machine integers (u16, usize) are modelled as Nat; Rust's saturating
subtraction on usize coincides with Nat subtraction.  The
HashMap<String, Tweet> is modelled as an association list with
replace-on-duplicate insertion, which has exactly HashMap's lookup and
size semantics when built from empty.  Panicking operations (indexing
out of bounds) are modelled with Option.  Terminal side effects are
modelled as lists of queued commands.
-/

/-- Item record.  Modelled from the spec: the `api::Tweet` type lives in
src/twitter_client (not under src/); the spec's Item record lists an
identifier, author handle, optional author display name, creation
timestamp and body text.  `created_at` is kept as the already formatted
timestamp string, which is all the UI layer reads. -/
structure Tweet where
  id : String
  author_username : Option String
  author_name : Option String
  created_at : String
  text : String
deriving DecidableEq, Repr

/-- `enum Mode { Log, Interactive }` from src/ui/mod.rs. -/
inductive Mode where
  | Log
  | Interactive
deriving DecidableEq, Repr

/-- `enum InternalEvent { FeedUpdated, LogError(Error) }` from src/ui/mod.rs;
the anyhow error is modelled by its message string. -/
inductive InternalEvent where
  | FeedUpdated
  | LogError (msg : String)
deriving DecidableEq, Repr

/-- `HashMap::insert`: replace the value when the key is present,
otherwise add a new entry. -/
def insertTweet (m : List (String × Tweet)) (k : String) (v : Tweet) :
    List (String × Tweet) :=
  if (m.map Prod.fst).contains k then
    m.map (fun p => if p.1 = k then (k, v) else p)
  else
    m ++ [(k, v)]

/-- `HashMap` lookup (`tweets[tweet_id]`, as an Option since the Rust
index panics on a missing key). -/
def lookupTweet (m : List (String × Tweet)) (k : String) : Option Tweet :=
  (m.find? (fun p => p.1 = k)).map Prod.snd

/-- The shared feed store of `UI`: `tweets` (the id-keyed map),
`tweets_reverse_chronological` (the ordered id sequence) and
`tweets_page_token` (the pagination cursor), from src/ui/mod.rs. -/
structure FeedStore where
  tweets : List (String × Tweet)
  tweets_reverse_chronological : List String
  tweets_page_token : Option String
deriving DecidableEq, Repr

/-- The store a fresh `UI::new` holds: empty map, empty order, no cursor. -/
def emptyStore : FeedStore :=
  { tweets := [], tweets_reverse_chronological := [], tweets_page_token := none }

/-- The merge step inside `do_load_page_of_tweets` (src/ui/mod.rs lines
275-290): store the returned cursor, insert every received tweet into
the map, and append the received ids to the ordered sequence in
received order. -/
def merge_page (st : FeedStore) (new_tweets : List Tweet)
    (page_token : Option String) : FeedStore :=
  { tweets := new_tweets.foldl (fun m t => insertTweet m t.id t) st.tweets
    tweets_reverse_chronological :=
      st.tweets_reverse_chronological ++ new_tweets.map (fun t => t.id)
    tweets_page_token := page_token }

/-- Outcome of one spawned fetch task: the store it leaves behind, the
single internal event it sends on the channel, and whether the external
provider (`twitter_client.timeline_reverse_chronological`) was reached. -/
structure LoadResult where
  store : FeedStore
  event : InternalEvent
  providerCalled : Bool
deriving DecidableEq, Repr

/-- The body of the task spawned by `do_load_page_of_tweets`
(src/ui/mod.rs lines 258-298).  `lockAvailable` is the `try_lock` on
`tweets_page_token` (false when a previous load still holds it);
`provider` is the response the external collaborator would give,
`Except.error` being a provider failure. -/
def do_load_page_of_tweets (lockAvailable : Bool) (restart : Bool)
    (provider : Except String (List Tweet × Option String))
    (st : FeedStore) : LoadResult :=
  if lockAvailable = false then
    { store := st, event := .LogError "Cannot get lock", providerCalled := false }
  else
    match restart, st.tweets_page_token with
    | false, none =>
        { store := st, event := .LogError "No more pages", providerCalled := false }
    | _, _ =>
        match provider with
        | .error e =>
            { store := st, event := .LogError e, providerCalled := true }
        | .ok (new_tweets, page_token) =>
            { store := merge_page st new_tweets page_token
              event := .FeedUpdated
              providerCalled := true }

/-- A whole sequence of successful merges, starting from a given store:
each page is the (items, next cursor) pair one fetch returned. -/
def mergePages (pages : List (List Tweet × Option String)) (st : FeedStore) :
    FeedStore :=
  pages.foldl (fun s p => merge_page s p.1 p.2) st

/-- All identifiers delivered across a sequence of pages, in delivery
order. -/
def pagesIds (pages : List (List Tweet × Option String)) : List String :=
  pages.flatMap (fun p => p.1.map (fun t => t.id))

/-- The `Layout` plus the per-pane dirty flag of `UI` (src/ui/mod.rs):
the screen dimensions, the two pane widths, and `feed_pane.should_render`
(the one registered pane in mod.rs has one flag). -/
structure UIState where
  screen_cols : Nat
  screen_rows : Nat
  feed_pane_width : Nat
  tweet_pane_width : Nat
  feed_pane_should_render : Bool
deriving DecidableEq, Repr

/-- `UI::new` (src/ui/mod.rs lines 100-131): both pane widths are set to
half the screen width, and a fresh pane is created with
`should_render = true`. -/
def UI_new (cols rows : Nat) : UIState :=
  { screen_cols := cols
    screen_rows := rows
    feed_pane_width := cols / 2
    tweet_pane_width := cols / 2
    feed_pane_should_render := true }

/-- `UI::resize` (src/ui/mod.rs lines 150-153): stores the new screen
dimensions.  That is the whole body. -/
def resize (ui : UIState) (cols rows : Nat) : UIState :=
  { ui with screen_cols := cols, screen_rows := rows }

/-- The `Event::Resize(cols, rows)` arm of `handle_terminal_event`
(src/ui/mod.rs line 338): it only calls `self.resize(cols, rows)`. -/
def handle_resize_event (ui : UIState) (cols rows : Nat) : UIState :=
  resize ui cols rows

/-- Terminal-surface primitives `set_mode` issues, from crossterm. -/
inductive TermOp where
  | EnterAlternateScreen
  | LeaveAlternateScreen
  | EnableRawMode
  | DisableRawMode
deriving DecidableEq, Repr

/-- The terminal-surface state the operations act on. -/
structure TermState where
  alt_screen : Bool
  raw_mode : Bool
deriving DecidableEq, Repr

/-- Effect of one terminal-surface primitive. -/
def applyTermOp (ts : TermState) : TermOp → TermState
  | .EnterAlternateScreen => { ts with alt_screen := true }
  | .LeaveAlternateScreen => { ts with alt_screen := false }
  | .EnableRawMode => { ts with raw_mode := true }
  | .DisableRawMode => { ts with raw_mode := false }

/-- Effect of a queued sequence of terminal-surface primitives. -/
def applyTermOps (ts : TermState) (ops : List TermOp) : TermState :=
  ops.foldl applyTermOp ts

/-- `UI::set_mode` (src/ui/mod.rs lines 133-148) as the sequence of
terminal-surface operations it executes for a given previous and new
mode.  On Interactive to Log the source executes `LeaveAlternateScreen`
then `enable_raw_mode()` again; `disable_raw_mode()` is commented out. -/
def set_mode (prev_mode new_mode : Mode) : List TermOp :=
  if prev_mode = .Log ∧ new_mode = .Interactive then
    [.EnterAlternateScreen, .EnableRawMode]
  else if prev_mode = .Interactive ∧ new_mode = .Log then
    [.LeaveAlternateScreen, .EnableRawMode]
  else
    []

/-- Colors used by the bottom bar. -/
inductive TermColor where
  | Black
  | White
deriving DecidableEq, Repr

/-- Terminal commands queued by the render code (crossterm `queue!`
arguments as data). -/
inductive Cmd where
  | MoveTo (col row : Nat)
  | SetForegroundColor (c : TermColor)
  | SetBackgroundColor (c : TermColor)
  | Print (s : String)
  | ResetColor
  | ClearUntilNewLine
deriving DecidableEq, Repr

/-- `BottomBar::render` (src/ui/bottom_bar.rs lines 12-31) as the queued
command list: move to the bottom row, set black-on-white, print
`format!("{}/{} tweets", selected_index, tweets.len())`, reset color. -/
def bottom_bar_render (screen_rows : Nat) (tweets : List String)
    (selected_index : Nat) : List Cmd :=
  [ .MoveTo 0 (screen_rows - 1)
  , .SetForegroundColor .Black
  , .SetBackgroundColor .White
  , .Print (toString selected_index ++ "/" ++ toString tweets.length ++ " tweets")
  , .ResetColor ]

/-- The text a command list prints (payload of its first Print). -/
def printedText (cmds : List Cmd) : Option String :=
  cmds.findSome? fun c =>
    match c with
    | .Print s => some s
    | _ => none

/-- Split a character list at every occurrence of `c`; the empty input
yields one empty segment, so "a\n\nb" has three line segments. -/
def splitOnChar (c : Char) : List Char → List (List Char)
  | [] => [[]]
  | ch :: rest =>
    match splitOnChar c rest with
    | [] => if ch = c then [[], []] else [[ch]]
    | w :: ws => if ch = c then [] :: w :: ws else (ch :: w) :: ws

/-- The words of one source line: the nonempty space-separated segments. -/
def lineWords (line : List Char) : List (List Char) :=
  (splitOnChar ' ' line).filter (fun w => w ≠ [])

/-- Join words with single spaces. -/
def joinWords : List (List Char) → List Char
  | [] => []
  | [w] => w
  | w :: ws => w ++ ' ' :: joinWords ws

/-- Display width of a wrapped line holding these words: word lengths
plus one space between adjacent words. -/
def lineWidth (ws : List (List Char)) : Nat :=
  (ws.map List.length).sum + (ws.length - 1)

/-- Greedy (first-fit) wrap of a word list: keep adding the next word to
the current line while it still fits in `width` columns, else break.
Modelled from the spec: "a greedy word-wrap (never split a word)". -/
def greedyWrapWords (width : Nat) (cur : List (List Char)) :
    List (List Char) → List (List (List Char))
  | [] => [cur.reverse]
  | w :: ws =>
    if cur = [] then
      greedyWrapWords width [w] ws
    else if lineWidth cur.reverse + 1 + w.length ≤ width then
      greedyWrapWords width (w :: cur) ws
    else
      cur.reverse :: greedyWrapWords width [w] ws

/-- Greedy wrap of one source line: a blank line yields one blank
wrapped line. -/
def greedyWrapLine (width : Nat) (line : List Char) : List (List Char) :=
  match lineWords line with
  | [] => [[]]
  | ws => (greedyWrapWords width [] ws).map joinWords

/-- Greedy word-wrap of a whole body text, one source line at a time.
Modelled from the spec: "wrap its body text ... using a greedy word-wrap
(never split a word; a blank source line produces a blank wrapped line,
preserving paragraph breaks)". -/
def greedyWrap (s : String) (width : Nat) : List String :=
  ((splitOnChar '\x0a' s.toList).flatMap (greedyWrapLine width)).map
    (fun cs => String.mk cs)

/-- All ways to break a word list into consecutive nonempty lines, with
structural fuel (call with `fuel = ws.length`). -/
def lineBreaksFuel : Nat → List (List Char) → List (List (List (List Char)))
  | _, [] => [[]]
  | 0, _ :: _ => []
  | fuel + 1, ws =>
    (List.range ws.length).flatMap fun i =>
      (lineBreaksFuel fuel (ws.drop (i + 1))).map fun rest =>
        (ws.take (i + 1)) :: rest

/-- All ways to break a word list into consecutive nonempty lines. -/
def lineBreaks (ws : List (List Char)) : List (List (List (List Char))) :=
  lineBreaksFuel ws.length ws

/-- Badness of one wrapped line at target `width`: the squared slack,
with a large penalty for overflowing (a single word longer than the
width must still go on a line of its own). -/
def lineCost (width : Nat) (ws : List (List Char)) : Nat :=
  if lineWidth ws ≤ width then (width - lineWidth ws) ^ 2
  else 100000 + lineWidth ws

/-- Badness of a whole break: the last line is free, every earlier line
pays its squared slack.  This is the minimum-raggedness objective of
textwrap's default `OptimalFit` wrap algorithm (the crate the source
calls; its test `test_segmentation` pins the resulting behavior). -/
def breakCost (width : Nat) : List (List (List Char)) → Nat
  | [] => 0
  | [ws] => if lineWidth ws ≤ width then 0 else 100000 + lineWidth ws
  | ws :: rest => lineCost width ws + breakCost width rest

/-- First element of least cost. -/
def chooseMinBy (cost : α → Nat) : List α → Option α
  | [] => none
  | x :: xs =>
    match chooseMinBy cost xs with
    | none => some x
    | some y => if cost x ≤ cost y then some x else some y

/-- Optimal-fit wrap of one source line: among all breaks, one of least
badness; a blank line yields one blank wrapped line. -/
def optimalWrapLine (width : Nat) (line : List Char) : List (List Char) :=
  match lineWords line with
  | [] => [[]]
  | ws =>
    match chooseMinBy (breakCost width) (lineBreaks ws) with
    | some brk => brk.map joinWords
    | none => [joinWords ws]

/-- Minimum-raggedness word-wrap of a whole body text, one source line
at a time: the model of `textwrap::wrap` with its default options, the
function `TweetPane::render` and the in-repo test `test_segmentation`
call. -/
def textwrapWrap (s : String) (width : Nat) : List String :=
  ((splitOnChar '\x0a' s.toList).flatMap (optimalWrapLine width)).map
    (fun cs => String.mk cs)

/-- The body text of end-to-end scenario 4 / `test_segmentation`. -/
def chickenText : String :=
  "Why did the chicken cross the road?\x0a\x0aBecause he wanted to get to the other side."

/-- The six lines `test_segmentation` asserts. -/
def chickenExpected : List String :=
  [ "Why did the chicken"
  , "cross the road?"
  , ""
  , "Because he wanted"
  , "to get to the other"
  , "side." ]

/-- One row drawn by `TweetPane::render`: move to the row start, clear
to end of line, print the content. -/
def drawRow (left row : Nat) (s : String) : List Cmd :=
  [.MoveTo left row, .ClearUntilNewLine, .Print s]

/-- The body-line loop of `TweetPane::render` (src/ui/tweet_pane.rs lines
61-66): draw each wrapped line on successive rows. -/
def drawRows (left : Nat) : Nat → List String → List Cmd
  | _, [] => []
  | row, s :: rest => drawRow left row s ++ drawRows left (row + 1) rest

/-- The padding loop of `TweetPane::render` (src/ui/tweet_pane.rs lines
68-72): clear every remaining row of the pane below the text. -/
def padRows (left row stop : Nat) : List Cmd :=
  (List.range (stop - row)).flatMap fun i =>
    [.MoveTo left (row + i), .ClearUntilNewLine]

/-- `TweetPane::render` (src/ui/tweet_pane.rs lines 30-76) as the queued
command list; `none` models the panic of `tweets[tweet_id]` on a missing
key.  When no tweet is selected the body under `if let Some(tweet_id)`
is skipped and nothing at all is queued. -/
def tweet_pane_render (tweets : List (String × Tweet))
    (selected_tweet_id : Option String)
    (left top width height : Nat) : Option (List Cmd) :=
  match selected_tweet_id with
  | none => some []
  | some tweet_id =>
    match lookupTweet tweets tweet_id with
    | none => none
    | some tweet =>
      let str_unknown := "[unknown]"
      let tweet_author :=
        "@" ++ tweet.author_username.getD str_unknown ++
          " [" ++ tweet.author_name.getD str_unknown ++ "]"
      let tweet_lines := textwrapWrap tweet.text (width - 1)
      some (drawRow left top tweet.created_at ++
        drawRow left (top + 1) tweet_author ++
        drawRows left (top + 3) tweet_lines ++
        padRows left (top + 3 + tweet_lines.length) (top + height))

/-- `UI::log_selected_tweet` (src/ui/mod.rs lines 227-239) up to its
write: the path written and the tweet written there.  `none` models the
panics of `tweets_reverse_chronological[selected_index]` out of bounds
and of `tweets[tweet_id]` on a missing key. -/
def log_selected_tweet (tweets : List (String × Tweet))
    (tweets_reverse_chronological : List String)
    (tweets_selected_index : Nat) : Option (String × Tweet) :=
  match tweets_reverse_chronological[tweets_selected_index]? with
  | none => none
  | some tweet_id =>
    match lookupTweet tweets tweet_id with
    | none => none
    | some tweet => some ("/tmp/tweet", tweet)

/-- A throwaway concrete tweet used by the witness theorems. -/
def witnessTweet (i : String) : Tweet :=
  { id := i, author_username := some "au", author_name := some "an"
    created_at := "2022-11-27 19:05:31", text := "hello world" }

/-- A concrete layout state as it stands after a render pass cleared the
pane's dirty flag: 80 columns, both pane widths 40. -/
def uiAfterRenderPass : UIState :=
  { screen_cols := 80, screen_rows := 24, feed_pane_width := 40
    tweet_pane_width := 40, feed_pane_should_render := false }

/-! Helper lemmas about the association-list model of the tweet map. -/

theorem contains_keys_iff (m : List (String × Tweet)) (k : String) :
    (m.map Prod.fst).contains k = true ↔ k ∈ m.map Prod.fst := by
  simp [List.contains]

theorem lookup_cons (p : String × Tweet) (m : List (String × Tweet))
    (k : String) :
    lookupTweet (p :: m) k = if p.1 = k then some p.2 else lookupTweet m k := by
  by_cases h : p.1 = k
  · simp [lookupTweet, List.find?, h]
  · simp [lookupTweet, List.find?, h]

theorem lookup_eq_none_of_not_mem (m : List (String × Tweet)) (k : String)
    (h : k ∉ m.map Prod.fst) : lookupTweet m k = none := by
  induction m with
  | nil => rfl
  | cons p m ih =>
    have hp : ¬ p.1 = k := by
      intro hp
      exact h (by rw [List.map_cons, hp]; exact List.mem_cons_self k _)
    rw [lookup_cons, if_neg hp]
    exact ih (fun hm => h (by rw [List.map_cons]; exact List.mem_cons_of_mem _ hm))

theorem lookup_append (m1 m2 : List (String × Tweet)) (k : String) :
    lookupTweet (m1 ++ m2) k = (lookupTweet m1 k).or (lookupTweet m2 k) := by
  induction m1 with
  | nil => simp [lookupTweet]
  | cons p m ih =>
    rw [List.cons_append, lookup_cons, lookup_cons]
    by_cases hp : p.1 = k <;> simp [hp, ih]

theorem lookup_replace_self (m : List (String × Tweet)) (k : String) (v : Tweet)
    (hmem : k ∈ m.map Prod.fst) :
    lookupTweet (m.map (fun p => if p.1 = k then (k, v) else p)) k = some v := by
  induction m with
  | nil => simp at hmem
  | cons p m ih =>
    by_cases hp : p.1 = k
    · rw [List.map_cons, if_pos hp, lookup_cons]
      simp
    · rw [List.map_cons, if_neg hp, lookup_cons, if_neg hp]
      apply ih
      rw [List.map_cons] at hmem
      rcases List.mem_cons.mp hmem with h1 | h2
      · exact absurd h1.symm hp
      · exact h2

theorem lookup_replace_ne (m : List (String × Tweet)) (k k' : String) (v : Tweet)
    (hk : k ≠ k') :
    lookupTweet (m.map (fun p => if p.1 = k then (k, v) else p)) k' =
      lookupTweet m k' := by
  induction m with
  | nil => rfl
  | cons p m ih =>
    by_cases hp : p.1 = k
    · rw [List.map_cons, if_pos hp, lookup_cons, lookup_cons]
      have h1 : ¬ (k, v).1 = k' := hk
      have h2 : ¬ p.1 = k' := by rw [hp]; exact hk
      rw [if_neg h1, if_neg h2, ih]
    · rw [List.map_cons, if_neg hp, lookup_cons, lookup_cons, ih]

theorem lookup_insert (m : List (String × Tweet)) (k k' : String) (v : Tweet) :
    lookupTweet (insertTweet m k v) k' =
      if k = k' then some v else lookupTweet m k' := by
  unfold insertTweet
  by_cases hc : (m.map Prod.fst).contains k = true
  · rw [if_pos hc]
    have hmem := (contains_keys_iff m k).mp hc
    by_cases hk : k = k'
    · subst hk
      rw [if_pos rfl]
      exact lookup_replace_self m k v hmem
    · rw [if_neg hk]
      exact lookup_replace_ne m k k' v hk
  · rw [if_neg hc]
    have hm : k ∉ m.map Prod.fst := fun h => hc ((contains_keys_iff m k).mpr h)
    rw [lookup_append]
    by_cases hk : k = k'
    · subst hk
      rw [lookup_eq_none_of_not_mem m k hm, lookup_cons]
      simp
    · have h1 : lookupTweet [(k, v)] k' = none := by
        rw [lookup_cons, if_neg (show ¬ (k, v).1 = k' from hk)]
        rfl
      rw [h1, Option.or_none, if_neg hk]

theorem lookup_foldl_insert (new_tweets : List Tweet)
    (m : List (String × Tweet)) (k : String) :
    lookupTweet (new_tweets.foldl (fun m t => insertTweet m t.id t) m) k =
      match new_tweets.reverse.find? (fun t => t.id = k) with
      | some t => some t
      | none => lookupTweet m k := by
  induction new_tweets generalizing m with
  | nil => rfl
  | cons t ts ih =>
    rw [List.foldl_cons, ih, List.reverse_cons, List.find?_append]
    cases hf : ts.reverse.find? (fun t => decide (t.id = k)) with
    | some u => simp
    | none =>
      simp only [Option.none_or]
      rw [lookup_insert]
      by_cases hk : t.id = k
      · simp [List.find?, hk]
      · simp [List.find?, hk]

theorem keys_insert_fresh (m : List (String × Tweet)) (k : String) (v : Tweet)
    (h : k ∉ m.map Prod.fst) :
    (insertTweet m k v).map Prod.fst = m.map Prod.fst ++ [k] := by
  unfold insertTweet
  rw [if_neg (fun hc => h ((contains_keys_iff m k).mp hc))]
  simp

theorem keys_foldl_insert (page : List Tweet) (m : List (String × Tweet))
    (h : (m.map Prod.fst ++ page.map (fun t => t.id)).Nodup) :
    (page.foldl (fun m t => insertTweet m t.id t) m).map Prod.fst =
      m.map Prod.fst ++ page.map (fun t => t.id) := by
  induction page generalizing m with
  | nil => simp
  | cons t ts ih =>
    rw [List.foldl_cons]
    have hfresh : t.id ∉ m.map Prod.fst := by
      rw [List.nodup_append] at h
      intro hmem
      exact h.2.2 hmem (by rw [List.map_cons]; exact List.mem_cons_self _ _)
    have hkeys := keys_insert_fresh m t.id t hfresh
    have h2 : ((insertTweet m t.id t).map Prod.fst ++
        ts.map (fun t => t.id)).Nodup := by
      rw [hkeys, List.append_assoc, List.singleton_append]
      rw [List.map_cons] at h
      exact h
    rw [ih _ h2, hkeys, List.append_assoc, List.singleton_append, List.map_cons]

theorem keys_merge_page (st : FeedStore) (page : List Tweet)
    (next : Option String)
    (hkeys : st.tweets.map Prod.fst = st.tweets_reverse_chronological)
    (h : (st.tweets_reverse_chronological ++ page.map (fun t => t.id)).Nodup) :
    (merge_page st page next).tweets.map Prod.fst =
      (merge_page st page next).tweets_reverse_chronological := by
  show (page.foldl (fun m t => insertTweet m t.id t) st.tweets).map Prod.fst =
    st.tweets_reverse_chronological ++ page.map (fun t => t.id)
  rw [keys_foldl_insert page st.tweets (by rw [hkeys]; exact h), hkeys]

theorem mergePages_cons (p : List Tweet × Option String)
    (ps : List (List Tweet × Option String)) (st : FeedStore) :
    mergePages (p :: ps) st = mergePages ps (merge_page st p.1 p.2) := rfl

theorem pagesIds_cons (p : List Tweet × Option String)
    (ps : List (List Tweet × Option String)) :
    pagesIds (p :: ps) = p.1.map (fun t => t.id) ++ pagesIds ps := by
  simp [pagesIds]

theorem keys_merge_pages (pages : List (List Tweet × Option String))
    (st : FeedStore)
    (hkeys : st.tweets.map Prod.fst = st.tweets_reverse_chronological)
    (h : (st.tweets_reverse_chronological ++ pagesIds pages).Nodup) :
    (mergePages pages st).tweets.map Prod.fst =
      (mergePages pages st).tweets_reverse_chronological := by
  induction pages generalizing st with
  | nil => simpa [mergePages] using hkeys
  | cons p ps ih =>
    rw [pagesIds_cons, ← List.append_assoc] at h
    rw [mergePages_cons]
    have h1 : (st.tweets_reverse_chronological ++
        p.1.map (fun t => t.id)).Nodup := h.of_append_left
    apply ih
    · exact keys_merge_page st p.1 p.2 hkeys h1
    · exact h

theorem do_load_success_eq (restart : Bool) (st : FeedStore)
    (new_tweets : List Tweet) (next : Option String)
    (h : restart = true ∨ st.tweets_page_token ≠ none) :
    do_load_page_of_tweets true restart (.ok (new_tweets, next)) st =
      { store := merge_page st new_tweets next
        event := .FeedUpdated
        providerCalled := true } := by
  unfold do_load_page_of_tweets
  rw [if_neg (by simp)]
  cases restart with
  | true => cases htok : st.tweets_page_token <;> rfl
  | false =>
    cases htok : st.tweets_page_token with
    | none =>
      rcases h with h | h
      · exact absurd h (by simp)
      · exact absurd htok h
    | some t => rfl

set_option maxRecDepth 10000

/-- C1: for every sequence of merge operations performed by the pagination
fetch, under the provider-non-duplication assumption the spec states, the
feed store invariant holds afterwards: the length of
`tweets_reverse_chronological` equals the number of entries of `tweets`,
and every identifier in the order sequence is a key of the map. -/
theorem merge_sequence_invariant (pages : List (List Tweet × Option String))
    (h : (pagesIds pages).Nodup) :
    (mergePages pages emptyStore).tweets_reverse_chronological.length =
      (mergePages pages emptyStore).tweets.length ∧
    ∀ id ∈ (mergePages pages emptyStore).tweets_reverse_chronological,
      id ∈ (mergePages pages emptyStore).tweets.map Prod.fst := by
  have hkeys : (mergePages pages emptyStore).tweets.map Prod.fst =
      (mergePages pages emptyStore).tweets_reverse_chronological := by
    apply keys_merge_pages
    · rfl
    · simpa [emptyStore] using h
  constructor
  · rw [← hkeys, List.length_map]
  · intro id hid
    rw [hkeys]
    exact hid

/-- Witness for C1 at two concrete pages with distinct identifiers. -/
theorem merge_sequence_invariant_witness :
    (pagesIds [([witnessTweet "a", witnessTweet "b"], some "tok"),
      ([witnessTweet "c"], none)]).Nodup ∧
    ((mergePages [([witnessTweet "a", witnessTweet "b"], some "tok"),
        ([witnessTweet "c"], none)] emptyStore).tweets_reverse_chronological.length =
      (mergePages [([witnessTweet "a", witnessTweet "b"], some "tok"),
        ([witnessTweet "c"], none)] emptyStore).tweets.length ∧
    ∀ id ∈ (mergePages [([witnessTweet "a", witnessTweet "b"], some "tok"),
        ([witnessTweet "c"], none)] emptyStore).tweets_reverse_chronological,
      id ∈ (mergePages [([witnessTweet "a", witnessTweet "b"], some "tok"),
        ([witnessTweet "c"], none)] emptyStore).tweets.map Prod.fst) :=
  ⟨by decide, merge_sequence_invariant _ (by decide)⟩

/-- C2: a page-load invoked while a previous load still holds the
pagination lock fails without blocking: it emits a LogError internal
event and leaves the cursor, the map and the order sequence unchanged,
and the external provider is never reached. -/
theorem load_while_locked_is_dropped (restart : Bool)
    (provider : Except String (List Tweet × Option String)) (st : FeedStore) :
    do_load_page_of_tweets false restart provider st =
      { store := st, event := .LogError "Cannot get lock"
        providerCalled := false } := rfl

/-- C3: a page-load with `restart = false` while no pagination cursor is
held fails with the no-more-pages error as a LogError internal event,
does not call the external provider, and leaves the store unchanged. -/
theorem load_without_cursor_no_more_pages
    (tweets : List (String × Tweet)) (ord : List String)
    (provider : Except String (List Tweet × Option String)) :
    do_load_page_of_tweets true false provider
        { tweets := tweets, tweets_reverse_chronological := ord
          tweets_page_token := none } =
      { store := { tweets := tweets, tweets_reverse_chronological := ord
                   tweets_page_token := none }
        event := .LogError "No more pages"
        providerCalled := false } := rfl

/-- C4: a successful page load inserts every received item into the map
(last write wins on a repeated identifier), appends the received
identifiers to the order sequence in received order strictly after the
existing ones, replaces the cursor with the returned one, and emits a
single FeedUpdated event. -/
theorem load_success_merges_page (restart : Bool) (st : FeedStore)
    (new_tweets : List Tweet) (next_cursor : Option String)
    (h : restart = true ∨ st.tweets_page_token ≠ none) :
    (do_load_page_of_tweets true restart
        (.ok (new_tweets, next_cursor)) st).event = .FeedUpdated ∧
    (do_load_page_of_tweets true restart
        (.ok (new_tweets, next_cursor)) st).store.tweets_page_token =
      next_cursor ∧
    (do_load_page_of_tweets true restart
        (.ok (new_tweets, next_cursor)) st).store.tweets_reverse_chronological =
      st.tweets_reverse_chronological ++ new_tweets.map (fun t => t.id) ∧
    ∀ k, lookupTweet (do_load_page_of_tweets true restart
        (.ok (new_tweets, next_cursor)) st).store.tweets k =
      match new_tweets.reverse.find? (fun t => t.id = k) with
      | some t => some t
      | none => lookupTweet st.tweets k := by
  rw [do_load_success_eq restart st new_tweets next_cursor h]
  exact ⟨rfl, rfl, rfl, fun k => lookup_foldl_insert new_tweets st.tweets k⟩

/-- Witness for C4 at a concrete restart load of two tweets. -/
theorem load_success_merges_page_witness :
    ((true : Bool) = true ∨ emptyStore.tweets_page_token ≠ none) ∧
    ((do_load_page_of_tweets true true
        (.ok ([witnessTweet "a", witnessTweet "b"], some "tok"))
        emptyStore).event = .FeedUpdated ∧
    (do_load_page_of_tweets true true
        (.ok ([witnessTweet "a", witnessTweet "b"], some "tok"))
        emptyStore).store.tweets_page_token = some "tok" ∧
    (do_load_page_of_tweets true true
        (.ok ([witnessTweet "a", witnessTweet "b"], some "tok"))
        emptyStore).store.tweets_reverse_chronological =
      emptyStore.tweets_reverse_chronological ++
        [witnessTweet "a", witnessTweet "b"].map (fun t => t.id) ∧
    ∀ k, lookupTweet (do_load_page_of_tweets true true
        (.ok ([witnessTweet "a", witnessTweet "b"], some "tok"))
        emptyStore).store.tweets k =
      match [witnessTweet "a", witnessTweet "b"].reverse.find?
          (fun t => t.id = k) with
      | some t => some t
      | none => lookupTweet emptyStore.tweets k) :=
  ⟨Or.inl rfl,
    load_success_merges_page true emptyStore
      [witnessTweet "a", witnessTweet "b"] (some "tok") (Or.inl rfl)⟩

/-- C5 counterexample: with a five-item feed and the first item selected
the bottom bar prints "0/5 tweets", not the claimed "1/5 items": the
displayed position is the raw zero-based index and the label says
"tweets". -/
theorem bottom_bar_counterexample :
    printedText (bottom_bar_render 24 ["t1", "t2", "t3", "t4", "t5"] 0) =
      some "0/5 tweets" ∧
    printedText (bottom_bar_render 24 ["t1", "t2", "t3", "t4", "t5"] 0) ≠
      some "1/5 items" := by decide

/-- C5 (amended): the status line renders
`"{selected_index}/{total} tweets"` — the zero-based selected index, not
the index plus one — in black on a white background on the bottom
row. -/
theorem bottom_bar_status_line (screen_rows : Nat) (tweets : List String)
    (selected_index : Nat) :
    printedText (bottom_bar_render screen_rows tweets selected_index) =
      some (toString selected_index ++ "/" ++ toString tweets.length
        ++ " tweets") ∧
    (bottom_bar_render screen_rows tweets selected_index).head? =
      some (.MoveTo 0 (screen_rows - 1)) ∧
    Cmd.SetBackgroundColor .White ∈
      bottom_bar_render screen_rows tweets selected_index ∧
    Cmd.SetForegroundColor .Black ∈
      bottom_bar_render screen_rows tweets selected_index := by
  refine ⟨rfl, rfl, ?_, ?_⟩ <;> simp [bottom_bar_render]

/-- C6 counterexample: handling a resize event to 100x50 leaves the pane
dirty flag false and the pane width at 40 (not the recomputed
100 / 2 = 50), so a resize neither marks panes dirty nor recomputes pane
widths. -/
theorem resize_counterexample :
    (handle_resize_event uiAfterRenderPass 100 50).feed_pane_should_render
      = false ∧
    (handle_resize_event uiAfterRenderPass 100 50).feed_pane_width = 40 ∧
    (handle_resize_event uiAfterRenderPass 100 50).feed_pane_width ≠
      100 / 2 ∧
    (handle_resize_event uiAfterRenderPass 100 50).screen_cols = 100 := by
  decide

/-- C6 (amended): a resize event only stores the new screen dimensions;
the pane widths (computed once in `UI::new` as half the screen width)
and the pane dirty flags are left unchanged. -/
theorem resize_updates_dimensions_only (ui : UIState) (cols rows : Nat) :
    (handle_resize_event ui cols rows).screen_cols = cols ∧
    (handle_resize_event ui cols rows).screen_rows = rows ∧
    (handle_resize_event ui cols rows).feed_pane_width =
      ui.feed_pane_width ∧
    (handle_resize_event ui cols rows).tweet_pane_width =
      ui.tweet_pane_width ∧
    (handle_resize_event ui cols rows).feed_pane_should_render =
      ui.feed_pane_should_render ∧
    (UI_new cols rows).feed_pane_width = cols / 2 :=
  ⟨rfl, rfl, rfl, rfl, rfl, rfl⟩

/-- C7: the display-mode state machine: Log to Interactive enters the
alternate surface and enables raw mode; Interactive to Log leaves the
alternate surface while raw mode stays enabled and no disable-raw-mode
operation is issued; re-entering the current mode issues no
terminal-surface operation at all. -/
theorem set_mode_state_machine (alt raw : Bool) (m : Mode) :
    set_mode .Log .Interactive =
      [.EnterAlternateScreen, .EnableRawMode] ∧
    (applyTermOps ⟨alt, raw⟩ (set_mode .Log .Interactive)).alt_screen
      = true ∧
    (applyTermOps ⟨alt, raw⟩ (set_mode .Log .Interactive)).raw_mode
      = true ∧
    set_mode .Interactive .Log =
      [.LeaveAlternateScreen, .EnableRawMode] ∧
    (applyTermOps ⟨alt, raw⟩ (set_mode .Interactive .Log)).alt_screen
      = false ∧
    (applyTermOps ⟨alt, raw⟩ (set_mode .Interactive .Log)).raw_mode
      = true ∧
    (set_mode .Interactive .Log).contains .DisableRawMode = false ∧
    set_mode m m = [] := by
  cases alt <;> cases raw <;> cases m <;> decide

/-- C8 counterexample: a greedy (first-fit) wrap of the scenario text at
width 20 fills the fourth line to "Because he wanted to" (exactly 20
columns), so it does not produce the six lines the claim lists — those
lines are not the greedy wrapping. -/
theorem greedy_wrap_counterexample :
    greedyWrap chickenText 20 =
      [ "Why did the chicken", "cross the road?", "",
        "Because he wanted to", "get to the other", "side." ] ∧
    greedyWrap chickenText 20 ≠ chickenExpected := by decide

/-- C8 (amended): the wrap the code performs (`textwrap::wrap` with
default options, a minimum-raggedness optimal-fit wrap, pinned by the
in-repo test `test_segmentation`) produces exactly the six claimed
lines; the greedy characterization is what fails, not the lines. -/
theorem textwrap_wrap_scenario :
    textwrapWrap chickenText 20 = chickenExpected := by decide

/-- C9: the detail-inspection operation is in-bounds only when the
selected index has an entry in the order sequence: with a tweet stored
under the selected identifier it writes that tweet to the fixed path
/tmp/tweet, and on an empty feed store it panics (models as none)
instead of returning a structured error. -/
theorem log_selected_tweet_spec (tweets : List (String × Tweet))
    (ord : List String) (i : Nat) (tid : String) (t : Tweet)
    (hi : ord[i]? = some tid)
    (ht : lookupTweet tweets tid = some t) :
    log_selected_tweet tweets ord i = some ("/tmp/tweet", t) ∧
    ∀ (tw : List (String × Tweet)) (j : Nat),
      log_selected_tweet tw [] j = none := by
  constructor
  · simp [log_selected_tweet, hi, ht]
  · intro tw j
    simp [log_selected_tweet]

/-- Witness for C9 at a one-tweet store with index 0 selected. -/
theorem log_selected_tweet_spec_witness :
    ((["a"] : List String)[0]? = some "a" ∧
      lookupTweet [("a", witnessTweet "a")] "a" = some (witnessTweet "a")) ∧
    (log_selected_tweet [("a", witnessTweet "a")] ["a"] 0 =
        some ("/tmp/tweet", witnessTweet "a") ∧
      ∀ (tw : List (String × Tweet)) (j : Nat),
        log_selected_tweet tw [] j = none) :=
  ⟨⟨by decide, by decide⟩,
    log_selected_tweet_spec [("a", witnessTweet "a")] ["a"] 0 "a"
      (witnessTweet "a") (by decide) (by decide)⟩

/-- C10: rendering the detail pane with no selected tweet queues no
terminal output at all for the pane's region — no clearing, no padding —
leaving whatever was previously drawn there unchanged. -/
theorem tweet_pane_no_selection_no_output (tweets : List (String × Tweet))
    (left top width height : Nat) :
    tweet_pane_render tweets none left top width height = some [] := rfl


